import Mathlib

/-!
Verification of the license-state reconciliation engine of the
foxsight-license-client service (`src/license_client.py`), against its
natural-language specification.

Shallow embedding conventions:
* Time is modelled in whole hours as `Nat` (`datetime.utcnow()` becomes a
  `now : Nat` parameter; `timedelta(days := 30)` is `30 * 24` hours,
  `timedelta(hours := h)` is `h`).  Nullable `DateTime` columns become
  `Option Nat`.
* The database session is the explicit state `DBState`: the rows of
  `local_license_cache`, `local_license_validation_attempts` and
  `local_feature_flags`, each as a list in insertion order (SQLAlchemy's
  unordered `.first()` is modelled as the head of that list, matching the
  primary-key order a fresh sequence produces).
* Network calls to the licensing authority are the only effectful,
  fallible steps; each is modelled by an explicit outcome argument
  (`ActivateOutcome`, `ValidateOutcome`, `HeartbeatOutcome`) enumerating
  the cases the Python code distinguishes: `httpx.HTTPError` (transport),
  any other `Exception`, and the parsed JSON response.  Response payloads
  are modelled as well-formed shapes (the fields the code reads).
* Every engine operation is a total function `... → Result × DBState`;
  "never raises to the caller" is witnessed by totality.
-/

/-- The opaque license payload returned by the authority.  The engine only
reads `licenseKey` (required, `license_data["licenseKey"]`),
`signature` (`license_data.get("signature", "")`) and
`enabledFeatures` (`license_data.get("enabledFeatures", [])`); optional
accesses are `Option` with the code's defaults applied at the use site. -/
structure LicenseData where
  licenseKey : String
  signature : Option String
  enabledFeatures : Option (List String)
  deriving Repr, DecidableEq

/-- A row of `local_license_cache` (class `LocalLicenseCache` in
`src/database.py`).  Column defaults (`cached_at = utcnow`,
`is_valid = True`, `in_grace_period = False`) are applied where the code
constructs a row. -/
structure CachedLicense where
  licenseKey : String
  licenseData : LicenseData
  cachedAt : Nat
  validUntil : Nat
  lastValidatedAt : Option Nat
  isValid : Bool
  validationError : Option String
  inGracePeriod : Bool
  gracePeriodStartedAt : Option Nat
  gracePeriodExpiresAt : Option Nat
  licenseSignature : String
  deriving Repr, DecidableEq

/-- A row of `local_license_validation_attempts`
(class `LocalLicenseValidationAttempt`); `attempted_at` is a database
default the engine never reads, so it is omitted. -/
structure ValidationAttempt where
  licenseKey : String
  result : String
  errorMessage : Option String
  hardwareId : String
  deriving Repr, DecidableEq

/-- A row of `local_feature_flags` (class `LocalFeatureFlag`); defaults
`enabled = False`, `licensed = False`, `system_enabled = True`. -/
structure FeatureFlag where
  featureKey : String
  enabled : Bool
  licensed : Bool
  systemEnabled : Bool
  syncedAt : Option Nat
  deriving Repr, DecidableEq

/-- The local database state the engine reads and writes. -/
structure DBState where
  licenses : List CachedLicense
  attempts : List ValidationAttempt
  flags : List FeatureFlag
  deriving Repr, DecidableEq

/-- Default of `settings.OFFLINE_GRACE_PERIOD_HOURS` (`src/config.py`). -/
def OFFLINE_GRACE_PERIOD_HOURS : Nat := 72

/-- The `timedelta(days = 30)` of `_store_license_cache`, in hours. -/
def thirtyDaysHours : Nat := 30 * 24

/-- Embeds `LicenseClient._get_cached_license`:
`query(LocalLicenseCache).first()`. -/
def get_cached_license (st : DBState) : Option CachedLicense :=
  st.licenses.head?

/-- Embeds `LicenseClient._log_validation_attempt`: constructs a
`LocalLicenseValidationAttempt` row and commits it (append). -/
def log_validation_attempt (licenseKey resultStr : String)
    (errorMessage : Option String) (hardwareId : String)
    (st : DBState) : DBState :=
  { st with attempts :=
      st.attempts ++ [⟨licenseKey, resultStr, errorMessage, hardwareId⟩] }

/-- Embeds `LicenseClient._is_core_feature`. -/
def is_core_feature (featureKey : String) : Bool :=
  featureKey ∈ ["module.camera_management", "module.live_view",
                "module.recording_basic", "module.playback",
                "module.user_management"]

/-- Embeds `LicenseClient.is_feature_available`, with
`settings.ALLOW_UNLICENSED_CORE_FEATURES` passed explicitly.  A pure read
of `DBState` — the embedding has no authority-outcome argument because the
code performs no network call here. -/
def is_feature_available (allowUnlicensedCore : Bool) (featureKey : String)
    (st : DBState) : Bool :=
  match st.flags.find? (fun f => f.featureKey == featureKey) with
  | none => allowUnlicensedCore && is_core_feature featureKey
  | some feature => feature.licensed && feature.systemEnabled

/-- Embeds `LicenseClient._store_license_cache`: upsert keyed by the payload's
`licenseKey`.  If a row with that key exists it is updated in place
(`license_data`, `cached_at`, `valid_until`, `is_valid`,
`license_signature`); otherwise a new row is added with column defaults. -/
def store_license_cache (now : Nat) (licenseData : LicenseData)
    (st : DBState) : DBState :=
  let validUntil := now + thirtyDaysHours
  if st.licenses.any (fun l => l.licenseKey == licenseData.licenseKey) then
    { st with licenses := st.licenses.map (fun l =>
        if l.licenseKey == licenseData.licenseKey then
          { l with licenseData := licenseData
                   cachedAt := now
                   validUntil := validUntil
                   isValid := true
                   licenseSignature := licenseData.signature.getD "" }
        else l) }
  else
    { st with licenses := st.licenses ++
        [{ licenseKey := licenseData.licenseKey
           licenseData := licenseData
           cachedAt := now
           validUntil := validUntil
           lastValidatedAt := none
           isValid := true
           validationError := none
           inGracePeriod := false
           gracePeriodStartedAt := none
           gracePeriodExpiresAt := none
           licenseSignature := licenseData.signature.getD "" }] }

/-- One step of the loop body of `_sync_feature_flags`: look up the flag
by key; update `licensed`/`synced_at` if present, else add a new row. -/
def syncOneFeature (now : Nat) (flags : List FeatureFlag)
    (featureKey : String) : List FeatureFlag :=
  if flags.any (fun f => f.featureKey == featureKey) then
    flags.map (fun f =>
      if f.featureKey == featureKey then
        { f with licensed := true, syncedAt := some now }
      else f)
  else
    flags ++ [{ featureKey := featureKey
                enabled := true
                licensed := true
                systemEnabled := true
                syncedAt := some now }]

/-- Embeds `LicenseClient._sync_feature_flags`: reset every flag's `licensed` to
false, then re-license each key of `enabledFeatures` (default `[]`). -/
def sync_feature_flags (now : Nat) (licenseData : LicenseData)
    (st : DBState) : DBState :=
  let reset := st.flags.map (fun f => { f with licensed := false })
  { st with flags :=
      (licenseData.enabledFeatures.getD []).foldl (syncOneFeature now) reset }

/-- Head-in-place update: the SQLAlchemy pattern of mutating the row object
returned by `_get_cached_license` (the first row) and committing. -/
def updateHead (f : CachedLicense → CachedLicense) :
    List CachedLicense → List CachedLicense
  | [] => []
  | l :: ls => f l :: ls

/-- The possible outcomes of the `POST /licenses/activate` call in
`activate_license`, as the code distinguishes them:
`transportError` = `httpx.HTTPError` (including `raise_for_status`),
`otherError` = any other `Exception`, `rejected` = HTTP 2xx body with
`success` falsy (the argument is the extracted
`data.get("error", {}).get("message", "Activation failed")`),
`accepted` = `success` truthy with its `data` payload. -/
inductive ActivateOutcome where
  | transportError (msg : String)
  | otherError (msg : String)
  | rejected (errMsg : String)
  | accepted (data : LicenseData)
  deriving Repr, DecidableEq

/-- The dict `activate_license` returns. -/
structure ActivationResult where
  success : Bool
  error : Option String
  license : Option LicenseData
  message : Option String
  deriving Repr, DecidableEq

/-- Embeds `LicenseClient.activate_license`.  On `accepted`:
`_store_license_cache`, then `_sync_feature_flags`, then
`_start_heartbeat` (scheduler arming — no database effect, modelled out),
then a `success` attempt.  On `rejected`: returns failure with no state
change (the code logs no attempt on this path).  On either exception:
logs a `failed` attempt with the handler's message prefix. -/
def activate_license (now : Nat) (hardwareId licenseKey : String)
    (outcome : ActivateOutcome) (st : DBState) :
    ActivationResult × DBState :=
  match outcome with
  | .accepted data =>
      let st1 := store_license_cache now data st
      let st2 := sync_feature_flags now data st1
      let st3 := log_validation_attempt licenseKey "success" none hardwareId st2
      ({ success := true, error := none, license := some data,
         message := some "License activated successfully" }, st3)
  | .rejected errMsg =>
      ({ success := false, error := some errMsg,
         license := none, message := none }, st)
  | .transportError msg =>
      let errorMsg := "HTTP error during activation: " ++ msg
      ({ success := false, error := some errorMsg,
         license := none, message := none },
       log_validation_attempt licenseKey "failed" (some errorMsg) hardwareId st)
  | .otherError msg =>
      let errorMsg := "Activation failed: " ++ msg
      ({ success := false, error := some errorMsg,
         license := none, message := none },
       log_validation_attempt licenseKey "failed" (some errorMsg) hardwareId st)

/-- The dict shapes `validate_license` / `_check_grace_period` return,
with each optionally-present key an `Option` field. -/
structure ValidationResult where
  valid : Bool
  reason : Option String
  message : Option String
  inGracePeriod : Option Bool
  validUntil : Option Nat
  gracePeriodExpires : Option Nat
  license : Option LicenseData
  deriving Repr, DecidableEq

/-- Embeds `LicenseClient._check_grace_period`: the four-branch grace policy.
Branch 2 mutates the fetched row (the head) and commits; branches 1, 3
and 4 are read-only. -/
def check_grace_period (gracePeriodHours now : Nat)
    (cachedLicense : CachedLicense) (st : DBState) :
    ValidationResult × DBState :=
  if now < cachedLicense.validUntil then
    ({ valid := true, reason := none, message := none,
       inGracePeriod := some true,
       validUntil := some cachedLicense.validUntil,
       gracePeriodExpires := none,
       license := some cachedLicense.licenseData }, st)
  else if !cachedLicense.inGracePeriod then
    let gracePeriodExpires := now + gracePeriodHours
    let startGrace : CachedLicense → CachedLicense := fun l =>
      { l with inGracePeriod := true,
               gracePeriodStartedAt := some now,
               gracePeriodExpiresAt := some gracePeriodExpires }
    ({ valid := true, reason := none, message := none,
       inGracePeriod := some true, validUntil := none,
       gracePeriodExpires := some gracePeriodExpires,
       license := some cachedLicense.licenseData },
     { st with licenses := updateHead startGrace st.licenses })
  else
    match cachedLicense.gracePeriodExpiresAt with
    | some e =>
        if now < e then
          ({ valid := true, reason := none, message := none,
             inGracePeriod := some true, validUntil := none,
             gracePeriodExpires := some e,
             license := some cachedLicense.licenseData }, st)
        else
          ({ valid := false, reason := some "grace_period_expired",
             message :=
               some "License validation failed and grace period has expired",
             inGracePeriod := none, validUntil := none,
             gracePeriodExpires := none, license := none }, st)
    | none =>
        ({ valid := false, reason := some "grace_period_expired",
           message :=
             some "License validation failed and grace period has expired",
           inGracePeriod := none, validUntil := none,
           gracePeriodExpires := none, license := none }, st)

/-- Embeds `LicenseClient._update_license_cache`: sets `last_validated_at`,
`is_valid` (from `validation_data.get("isValid", False)`) and
`in_grace_period = False` on the fetched row; no-op without one. -/
def update_license_cache (now : Nat) (isValid : Bool) (st : DBState) :
    DBState :=
  match get_cached_license st with
  | none => st
  | some _ =>
      { st with licenses := updateHead (fun l =>
          { l with lastValidatedAt := some now
                   isValid := isValid
                   inGracePeriod := false }) st.licenses }

/-- The outcomes of the `POST /licenses/validate` call in
`validate_license`: a transport error (`httpx.HTTPError`), any other
exception, or a parsed 2xx body carrying `success`, `data.isValid` and
`data.license` (the payload echoed back on the success path). -/
inductive ValidateOutcome where
  | transportError (msg : String)
  | otherError (msg : String)
  | response (success isValid : Bool) (license : LicenseData)
  deriving Repr, DecidableEq

/-- A validate run that does not take the success path: the authority is
unreachable, errors, or reports the license invalid. -/
def ValidateOutcome.isFailure : ValidateOutcome → Bool
  | .transportError _ => true
  | .otherError _ => true
  | .response success isValid _ => !(success && isValid)

/-- Embeds `LicenseClient.validate_license`.  No cached row: `no_license`, no
network call, no attempt logged.  Authority says valid: update cache, log
`success`.  Authority reachable but invalid: straight to grace policy
(no attempt logged).  Transport error: log `offline` then grace policy.
Other exception: log `failed` then grace policy. -/
def validate_license (gracePeriodHours now : Nat) (hardwareId : String)
    (outcome : ValidateOutcome) (st : DBState) :
    ValidationResult × DBState :=
  match get_cached_license st with
  | none =>
      ({ valid := false, reason := some "no_license", message := none,
         inGracePeriod := none, validUntil := none,
         gracePeriodExpires := none, license := none }, st)
  | some cachedLicense =>
      match outcome with
      | .response success isValid license =>
          if success && isValid then
            let st1 := update_license_cache now isValid st
            let st2 := log_validation_attempt cachedLicense.licenseKey
              "success" none hardwareId st1
            ({ valid := true, reason := none, message := none,
               inGracePeriod := some false, validUntil := none,
               gracePeriodExpires := none, license := some license }, st2)
          else
            check_grace_period gracePeriodHours now cachedLicense st
      | .transportError msg =>
          check_grace_period gracePeriodHours now cachedLicense
            (log_validation_attempt cachedLicense.licenseKey "offline"
              (some msg) hardwareId st)
      | .otherError msg =>
          check_grace_period gracePeriodHours now cachedLicense
            (log_validation_attempt cachedLicense.licenseKey "failed"
              (some msg) hardwareId st)

/-- The outcomes of a `send_heartbeat` run: metric/system-info collection
raising, the HTTP POST raising (both land in the same `except` and are
only printed), or the POST succeeding. -/
inductive HeartbeatOutcome where
  | metricsError (msg : String)
  | postError (msg : String)
  | ok
  deriving Repr, DecidableEq

/-- Embeds `LicenseClient.send_heartbeat`: no-op without a cached row; on any
failure the `except` swallows it with no state change; on success only
`last_validated_at` on the fetched row is updated.  Total — it returns to
the caller on every outcome. -/
def send_heartbeat (now : Nat) (outcome : HeartbeatOutcome) (st : DBState) :
    DBState :=
  match get_cached_license st with
  | none => st
  | some _ =>
      match outcome with
      | .metricsError _ => st
      | .postError _ => st
      | .ok =>
          { st with licenses := updateHead (fun l =>
              { l with lastValidatedAt := some now }) st.licenses }

/-- The engine operations that touch the database, for stating
whole-engine frame properties (claim C10). -/
inductive EngineOp where
  | activate (now : Nat) (hardwareId licenseKey : String)
      (o : ActivateOutcome)
  | validate (gracePeriodHours now : Nat) (hardwareId : String)
      (o : ValidateOutcome)
  | heartbeat (now : Nat) (o : HeartbeatOutcome)
  deriving Repr

/-- The state each engine operation leaves behind. -/
def EngineOp.apply : EngineOp → DBState → DBState
  | .activate now hw key o, st => (activate_license now hw key o st).2
  | .validate g now hw o, st => (validate_license g now hw o st).2
  | .heartbeat now o, st => send_heartbeat now o st

/-! ### Concrete states used by witnesses and counterexamples -/

/-- A sample authority payload with license key `KEY-A`. -/
def exDataA : LicenseData := ⟨"KEY-A", none, none⟩

/-- A sample authority payload with license key `KEY-B`, a signature and
one enabled feature. -/
def exDataB : LicenseData := ⟨"KEY-B", some "sig", some ["module.analytics"]⟩

/-- The empty database (fresh installation). -/
def emptyState : DBState := ⟨[], [], []⟩

/-- A cached `KEY-A` row that is in grace period: `validUntil = 5`,
grace window `[5, 10)`. -/
def exGraceLicense : CachedLicense :=
  { licenseKey := "KEY-A", licenseData := exDataA, cachedAt := 0,
    validUntil := 5, lastValidatedAt := none, isValid := false,
    validationError := none, inGracePeriod := true,
    gracePeriodStartedAt := some 5, gracePeriodExpiresAt := some 10,
    licenseSignature := "" }

/-- A database holding only `exGraceLicense`. -/
def exGraceState : DBState := ⟨[exGraceLicense], [], []⟩

/-- A cached `KEY-A` row not yet in grace period, `validUntil = 5`. -/
def exFreshLicense : CachedLicense :=
  { exGraceLicense with isValid := true, inGracePeriod := false,
                        gracePeriodStartedAt := none,
                        gracePeriodExpiresAt := none }

/-- A database holding only `exFreshLicense`. -/
def exFreshState : DBState := ⟨[exFreshLicense], [], []⟩

/-- A stored feature flag that is licensed and admin-enabled. -/
def exFlag : FeatureFlag := ⟨"module.analytics", true, true, true, some 0⟩

/-- A database holding only `exFlag`. -/
def exFlagState : DBState := ⟨[], [], [exFlag]⟩

/-- The license keys currently in the store, in row order. -/
def licenseKeys (st : DBState) : List String :=
  st.licenses.map (fun l => l.licenseKey)

/-! ### Helper lemmas about `updateHead` -/

theorem updateHead_length (f : CachedLicense → CachedLicense)
    (l : List CachedLicense) : (updateHead f l).length = l.length := by
  cases l <;> rfl

theorem updateHead_getElem? (f : CachedLicense → CachedLicense)
    (l : List CachedLicense) (i : Nat) :
    (updateHead f l)[i]? = if i = 0 then l[0]?.map f else l[i]? := by
  cases l <;> cases i <;> simp [updateHead]

theorem updateHead_head? (f : CachedLicense → CachedLicense)
    (l : List CachedLicense) : (updateHead f l).head? = l.head?.map f := by
  cases l <;> rfl

/-- C2: Activate is all-or-nothing.  Every failing activation
(authority-reported rejection, transport error, or unexpected exception)
leaves the license cache and every feature flag untouched; every
successful activation applies exactly the license-cache upsert and the
feature-flag reset-and-relicense (only the append-only attempt log may
differ besides them). -/
theorem activation_all_or_nothing (now : Nat) (hardwareId licenseKey : String)
    (o : ActivateOutcome) (st : DBState) :
    ((activate_license now hardwareId licenseKey o st).1.success = false →
      (activate_license now hardwareId licenseKey o st).2.licenses =
        st.licenses ∧
      (activate_license now hardwareId licenseKey o st).2.flags = st.flags) ∧
    ((activate_license now hardwareId licenseKey o st).1.success = true →
      ∃ d, o = .accepted d ∧
        (activate_license now hardwareId licenseKey o st).2.licenses =
          (store_license_cache now d st).licenses ∧
        (activate_license now hardwareId licenseKey o st).2.flags =
          (sync_feature_flags now d (store_license_cache now d st)).flags) := by
  cases o with
  | accepted d =>
      exact ⟨fun h => Bool.noConfusion h, fun _ => ⟨d, rfl, rfl, rfl⟩⟩
  | rejected m =>
      exact ⟨fun _ => ⟨rfl, rfl⟩, fun h => Bool.noConfusion h⟩
  | transportError m =>
      exact ⟨fun _ => ⟨rfl, rfl⟩, fun h => Bool.noConfusion h⟩
  | otherError m =>
      exact ⟨fun _ => ⟨rfl, rfl⟩, fun h => Bool.noConfusion h⟩

/-- Witness for C2 at a concrete rejected activation: the hypothesis
(`success = false`) holds and the state is untouched. -/
theorem activation_all_or_nothing_witness :
    (activate_license 0 "hw" "KEY-A" (.rejected "Activation failed")
        exFreshState).1.success = false ∧
    (activate_license 0 "hw" "KEY-A" (.rejected "Activation failed")
        exFreshState).2.licenses = exFreshState.licenses ∧
    (activate_license 0 "hw" "KEY-A" (.rejected "Activation failed")
        exFreshState).2.flags = exFreshState.flags :=
  ⟨rfl,
   ((activation_all_or_nothing 0 "hw" "KEY-A" (.rejected "Activation failed")
       exFreshState).1 rfl).1,
   ((activation_all_or_nothing 0 "hw" "KEY-A" (.rejected "Activation failed")
       exFreshState).1 rfl).2⟩

/-- C3: grace-period short-circuit priority.  With a cached license whose
`validUntil` is strictly in the future, any failing Validate returns
`valid: true`, `inGracePeriod: true` carrying the existing `validUntil`,
and leaves every license row — in particular `inGracePeriod`,
`gracePeriodStartedAt` and `gracePeriodExpiresAt` — unchanged. -/
theorem grace_valid_until_short_circuit (gracePeriodHours now : Nat)
    (hardwareId : String) (o : ValidateOutcome) (lic : CachedLicense)
    (st : DBState) (hfail : o.isFailure = true)
    (hhead : st.licenses.head? = some lic)
    (hvalid : now < lic.validUntil) :
    (validate_license gracePeriodHours now hardwareId o st).1.valid = true ∧
    (validate_license gracePeriodHours now hardwareId o st).1.inGracePeriod =
      some true ∧
    (validate_license gracePeriodHours now hardwareId o st).1.validUntil =
      some lic.validUntil ∧
    (validate_license gracePeriodHours now hardwareId o st).2.licenses =
      st.licenses := by
  cases o with
  | transportError m =>
      simp [validate_license, get_cached_license, hhead, check_grace_period,
            log_validation_attempt, hvalid]
  | otherError m =>
      simp [validate_license, get_cached_license, hhead, check_grace_period,
            log_validation_attempt, hvalid]
  | response s v pay =>
      have hsv : (s && v) = false := by
        have := hfail
        simp only [ValidateOutcome.isFailure, Bool.not_eq_true'] at this
        exact this
      simp [validate_license, get_cached_license, hhead, hsv,
            check_grace_period, hvalid]

/-- Witness for C3 at a concrete authority-rejected validation against
`exFreshState` (`validUntil = 5 > now = 3`). -/
theorem grace_valid_until_short_circuit_witness :
    ((ValidateOutcome.response true false exDataA).isFailure = true ∧
     exFreshState.licenses.head? = some exFreshLicense ∧
     3 < exFreshLicense.validUntil) ∧
    ((validate_license 72 3 "hw" (.response true false exDataA)
        exFreshState).1.valid = true ∧
     (validate_license 72 3 "hw" (.response true false exDataA)
        exFreshState).1.inGracePeriod = some true ∧
     (validate_license 72 3 "hw" (.response true false exDataA)
        exFreshState).1.validUntil = some exFreshLicense.validUntil ∧
     (validate_license 72 3 "hw" (.response true false exDataA)
        exFreshState).2.licenses = exFreshState.licenses) :=
  ⟨⟨by decide, by decide, by decide⟩,
   grace_valid_until_short_circuit 72 3 "hw" (.response true false exDataA)
     exFreshLicense exFreshState (by decide) (by decide) (by decide)⟩

/-- C4: grace-clock start and persistence.  Part 1: with the cached
license past its `validUntil` and not yet in grace period, a failing
Validate starts the grace clock — the stored row gets
`inGracePeriod := true`, `gracePeriodStartedAt := now`,
`gracePeriodExpiresAt := now + OFFLINE_GRACE_PERIOD_HOURS` — and the call
reports valid with that expiry.  Part 2: with the grace clock already
running and not yet expired, a failing Validate reports the stored expiry
and leaves every license row unchanged (the clock is not restarted). -/
theorem grace_clock_start_and_persistence :
    (∀ (g now : Nat) (hw : String) (o : ValidateOutcome)
       (lic : CachedLicense) (st : DBState),
       o.isFailure = true → st.licenses.head? = some lic →
       lic.validUntil ≤ now → lic.inGracePeriod = false →
       (validate_license g now hw o st).1.valid = true ∧
       (validate_license g now hw o st).1.gracePeriodExpires =
         some (now + g) ∧
       (validate_license g now hw o st).2.licenses.head? = some
         { lic with inGracePeriod := true,
                    gracePeriodStartedAt := some now,
                    gracePeriodExpiresAt := some (now + g) }) ∧
    (∀ (g now : Nat) (hw : String) (o : ValidateOutcome)
       (lic : CachedLicense) (st : DBState) (e : Nat),
       o.isFailure = true → st.licenses.head? = some lic →
       lic.validUntil ≤ now → lic.inGracePeriod = true →
       lic.gracePeriodExpiresAt = some e → now < e →
       (validate_license g now hw o st).1.valid = true ∧
       (validate_license g now hw o st).1.gracePeriodExpires = some e ∧
       (validate_license g now hw o st).2.licenses = st.licenses) := by
  constructor
  · intro g now hw o lic st hfail hhead h1 h2
    have hnl : ¬ now < lic.validUntil := Nat.not_lt.mpr h1
    cases o with
    | transportError m =>
        simp [validate_license, get_cached_license, hhead,
              check_grace_period, log_validation_attempt, hnl, h2,
              updateHead_head?]
    | otherError m =>
        simp [validate_license, get_cached_license, hhead,
              check_grace_period, log_validation_attempt, hnl, h2,
              updateHead_head?]
    | response s v pay =>
        have hsv : (s && v) = false := by
          have := hfail
          simp only [ValidateOutcome.isFailure, Bool.not_eq_true'] at this
          exact this
        simp [validate_license, get_cached_license, hhead, hsv,
              check_grace_period, hnl, h2, updateHead_head?]
  · intro g now hw o lic st e hfail hhead h1 h2 h3 h4
    have hnl : ¬ now < lic.validUntil := Nat.not_lt.mpr h1
    cases o with
    | transportError m =>
        simp [validate_license, get_cached_license, hhead,
              check_grace_period, log_validation_attempt, hnl, h2, h3, h4]
    | otherError m =>
        simp [validate_license, get_cached_license, hhead,
              check_grace_period, log_validation_attempt, hnl, h2, h3, h4]
    | response s v pay =>
        have hsv : (s && v) = false := by
          have := hfail
          simp only [ValidateOutcome.isFailure, Bool.not_eq_true'] at this
          exact this
        simp [validate_license, get_cached_license, hhead, hsv,
              check_grace_period, hnl, h2, h3, h4]

/-- Witness for C4: the grace clock starts on a concrete offline
validation at `now = 8` over `exFreshState` (`validUntil = 5`), with
expiry `8 + 72 = 80`. -/
theorem grace_clock_start_and_persistence_witness :
    ((ValidateOutcome.transportError "timeout").isFailure = true ∧
     exFreshState.licenses.head? = some exFreshLicense ∧
     exFreshLicense.validUntil ≤ 8 ∧
     exFreshLicense.inGracePeriod = false) ∧
    ((validate_license 72 8 "hw" (.transportError "timeout")
        exFreshState).1.valid = true ∧
     (validate_license 72 8 "hw" (.transportError "timeout")
        exFreshState).1.gracePeriodExpires = some (8 + 72) ∧
     (validate_license 72 8 "hw" (.transportError "timeout")
        exFreshState).2.licenses.head? = some
       { exFreshLicense with inGracePeriod := true,
                             gracePeriodStartedAt := some 8,
                             gracePeriodExpiresAt := some (8 + 72) }) :=
  ⟨⟨by decide, by decide, by decide, by decide⟩,
   grace_clock_start_and_persistence.1 72 8 "hw" (.transportError "timeout")
     exFreshLicense exFreshState (by decide) (by decide) (by decide)
     (by decide)⟩

/-- The terminal branch of the grace policy, factored out so the
recurrence in C5 can be proved by applying it at two instants: with
`validUntil` and `gracePeriodExpiresAt` both past and the grace flag set,
a failing Validate reports `grace_period_expired` and leaves every
license row unchanged. -/
theorem validate_grace_expired (g now : Nat) (hw : String)
    (o : ValidateOutcome) (lic : CachedLicense) (st : DBState) (e : Nat)
    (hfail : o.isFailure = true) (hhead : st.licenses.head? = some lic)
    (h1 : lic.validUntil ≤ now) (h2 : lic.inGracePeriod = true)
    (h3 : lic.gracePeriodExpiresAt = some e) (h4 : e ≤ now) :
    (validate_license g now hw o st).1.valid = false ∧
    (validate_license g now hw o st).1.reason =
      some "grace_period_expired" ∧
    (validate_license g now hw o st).2.licenses = st.licenses := by
  have hnl : ¬ now < lic.validUntil := Nat.not_lt.mpr h1
  have hne : ¬ now < e := Nat.not_lt.mpr h4
  cases o with
  | transportError m =>
      simp [validate_license, get_cached_license, hhead,
            check_grace_period, log_validation_attempt, hnl, h2, h3, hne]
  | otherError m =>
      simp [validate_license, get_cached_license, hhead,
            check_grace_period, log_validation_attempt, hnl, h2, h3, hne]
  | response s v pay =>
      have hsv : (s && v) = false := by
        have := hfail
        simp only [ValidateOutcome.isFailure, Bool.not_eq_true'] at this
        exact this
      simp [validate_license, get_cached_license, hhead, hsv,
            check_grace_period, hnl, h2, h3, hne]

/-- C5: terminal grace expiry.  With `validUntil`, the grace flag and a
past `gracePeriodExpiresAt` as stated, a failing Validate returns
`valid: false` with reason `grace_period_expired` and mutates no license
row; and every further failing Validate at any later instant (against the
state the first call left) returns the same outcome — it recurs until a
fresh activation. -/
theorem grace_period_expired_terminal (g now : Nat) (hw : String)
    (o : ValidateOutcome) (lic : CachedLicense) (st : DBState) (e : Nat)
    (hfail : o.isFailure = true) (hhead : st.licenses.head? = some lic)
    (h1 : lic.validUntil ≤ now) (h2 : lic.inGracePeriod = true)
    (h3 : lic.gracePeriodExpiresAt = some e) (h4 : e ≤ now) :
    ((validate_license g now hw o st).1.valid = false ∧
     (validate_license g now hw o st).1.reason =
       some "grace_period_expired" ∧
     (validate_license g now hw o st).2.licenses = st.licenses) ∧
    (∀ (now' : Nat) (o' : ValidateOutcome), now ≤ now' →
       o'.isFailure = true →
       (validate_license g now' hw o'
          (validate_license g now hw o st).2).1.valid = false ∧
       (validate_license g now' hw o'
          (validate_license g now hw o st).2).1.reason =
         some "grace_period_expired") := by
  have base := validate_grace_expired g now hw o lic st e hfail hhead h1 h2
    h3 h4
  refine ⟨base, fun now' o' hle hfail' => ?_⟩
  have hhead' : (validate_license g now hw o st).2.licenses.head? =
      some lic := by rw [base.2.2]; exact hhead
  have step := validate_grace_expired g now' hw o' lic
    (validate_license g now hw o st).2 e hfail' hhead'
    (le_trans h1 hle) h2 h3 (le_trans h4 hle)
  exact ⟨step.1, step.2.1⟩

/-- Witness for C5 over `exGraceState` (grace window ended at 10) at
`now = 100`, with a second failing call at `now = 200`. -/
theorem grace_period_expired_terminal_witness :
    ((ValidateOutcome.otherError "boom").isFailure = true ∧
     exGraceState.licenses.head? = some exGraceLicense ∧
     exGraceLicense.validUntil ≤ 100 ∧
     exGraceLicense.inGracePeriod = true ∧
     exGraceLicense.gracePeriodExpiresAt = some 10 ∧ 10 ≤ 100) ∧
    ((validate_license 72 100 "hw" (.otherError "boom")
        exGraceState).1.valid = false ∧
     (validate_license 72 100 "hw" (.otherError "boom")
        exGraceState).1.reason = some "grace_period_expired" ∧
     (validate_license 72 100 "hw" (.otherError "boom")
        exGraceState).2.licenses = exGraceState.licenses) ∧
    ((validate_license 72 200 "hw" (.transportError "down")
        (validate_license 72 100 "hw" (.otherError "boom")
          exGraceState).2).1.valid = false ∧
     (validate_license 72 200 "hw" (.transportError "down")
        (validate_license 72 100 "hw" (.otherError "boom")
          exGraceState).2).1.reason = some "grace_period_expired") :=
  ⟨⟨by decide, by decide, by decide, by decide, by decide, by decide⟩,
   (grace_period_expired_terminal 72 100 "hw" (.otherError "boom")
      exGraceLicense exGraceState 10 (by decide) (by decide) (by decide)
      (by decide) (by decide) (by decide)).1,
   (grace_period_expired_terminal 72 100 "hw" (.otherError "boom")
      exGraceLicense exGraceState 10 (by decide) (by decide) (by decide)
      (by decide) (by decide) (by decide)).2 200 (.transportError "down")
     (by decide) (by decide)⟩

/-- The license-cache upsert never touches the attempt log. -/
theorem store_license_cache_attempts (now : Nat) (d : LicenseData)
    (st : DBState) :
    (store_license_cache now d st).attempts = st.attempts := by
  unfold store_license_cache
  split <;> rfl

/-- The feature-flag sync never touches the attempt log. -/
theorem sync_feature_flags_attempts (now : Nat) (d : LicenseData)
    (st : DBState) :
    (sync_feature_flags now d st).attempts = st.attempts := rfl

/-- The grace policy never touches the attempt log (it only reads or
mutates the license row). -/
theorem check_grace_period_attempts (g now : Nat) (lic : CachedLicense)
    (st : DBState) :
    (check_grace_period g now lic st).2.attempts = st.attempts := by
  unfold check_grace_period
  split
  · rfl
  · split
    · rfl
    · split
      · split
        · rfl
        · rfl
      · rfl

/-- C6 as amended: exact per-outcome attempt logging.  Activate appends
exactly one attempt — `success` on success, `failed` (with the handler's
message prefix) on transport error or unexpected exception — except an
authority-reported rejection, which appends none.  Validate with a cached
license appends exactly one attempt — `success` on success, `offline` on
transport error, `failed` on unexpected exception — except when the
authority responds but reports the license invalid, which appends none.
Validate with no cached license appends none. -/
theorem validation_attempt_logging :
    (∀ (now : Nat) (hw key : String) (o : ActivateOutcome) (st : DBState),
       (activate_license now hw key o st).2.attempts =
         st.attempts ++ (match o with
           | .accepted _ => [⟨key, "success", none, hw⟩]
           | .rejected _ => []
           | .transportError m =>
               [⟨key, "failed",
                 some ("HTTP error during activation: " ++ m), hw⟩]
           | .otherError m =>
               [⟨key, "failed", some ("Activation failed: " ++ m), hw⟩])) ∧
    (∀ (g now : Nat) (hw : String) (o : ValidateOutcome)
       (lic : CachedLicense) (st : DBState),
       st.licenses.head? = some lic →
       (validate_license g now hw o st).2.attempts =
         st.attempts ++ (match o with
           | .response s v _ =>
               if s && v then [⟨lic.licenseKey, "success", none, hw⟩]
               else []
           | .transportError m => [⟨lic.licenseKey, "offline", some m, hw⟩]
           | .otherError m => [⟨lic.licenseKey, "failed", some m, hw⟩])) ∧
    (∀ (g now : Nat) (hw : String) (o : ValidateOutcome) (st : DBState),
       st.licenses.head? = none →
       (validate_license g now hw o st).2.attempts = st.attempts) := by
  refine ⟨fun now hw key o st => ?_, fun g now hw o lic st hhead => ?_,
          fun g now hw o st hhead => ?_⟩
  · cases o <;>
      simp [activate_license, log_validation_attempt,
            store_license_cache_attempts, sync_feature_flags_attempts]
  · cases o with
    | transportError m =>
        simp [validate_license, get_cached_license, hhead,
              check_grace_period_attempts, log_validation_attempt]
    | otherError m =>
        simp [validate_license, get_cached_license, hhead,
              check_grace_period_attempts, log_validation_attempt]
    | response s v pay =>
        cases hsv : s && v with
        | true =>
            simp [validate_license, get_cached_license, hhead, hsv,
                  update_license_cache, log_validation_attempt]
        | false =>
            simp [validate_license, get_cached_license, hhead, hsv,
                  check_grace_period_attempts]
  · simp [validate_license, get_cached_license, hhead]

/-- Counterexample to C6 as stated: a concrete Activate call that the
authority rejects appends no ValidationAttempt at all (the claim demands
exactly one per call). -/
theorem validation_attempt_logging_counterexample :
    ¬ ((activate_license 0 "hw" "KEY-A" (.rejected "Activation failed")
          emptyState).2.attempts.length =
        emptyState.attempts.length + 1) := by decide

/-- Witness for the amended C6 at a concrete offline validation: exactly
one `offline` attempt is appended. -/
theorem validation_attempt_logging_witness :
    exFreshState.licenses.head? = some exFreshLicense ∧
    (validate_license 72 3 "hw" (.transportError "down")
        exFreshState).2.attempts =
      exFreshState.attempts ++
        [⟨exFreshLicense.licenseKey, "offline", some "down", "hw"⟩] :=
  ⟨by decide,
   validation_attempt_logging.2.1 72 3 "hw" (.transportError "down")
     exFreshLicense exFreshState (by decide)⟩

/-- C7: heartbeat failure is inert.  Any SendHeartbeat run in which metric
collection or the authority call fails leaves the whole database state —
in particular every field of the cached license — unchanged, and
SendHeartbeat with no cached license is a no-op.  The call is a total
function, so it returns normally to the caller on every outcome. -/
theorem heartbeat_failure_inert :
    (∀ (now : Nat) (o : HeartbeatOutcome) (st : DBState),
       o ≠ HeartbeatOutcome.ok → send_heartbeat now o st = st) ∧
    (∀ (now : Nat) (o : HeartbeatOutcome) (st : DBState),
       st.licenses.head? = none → send_heartbeat now o st = st) := by
  constructor
  · intro now o st ho
    cases o with
    | ok => exact absurd rfl ho
    | metricsError m =>
        cases hh : get_cached_license st <;> simp [send_heartbeat, hh]
    | postError m =>
        cases hh : get_cached_license st <;> simp [send_heartbeat, hh]
  · intro now o st h
    have hh : get_cached_license st = none := h
    simp [send_heartbeat, hh]

/-- Witness for C7: a concrete failed heartbeat over `exFreshState`
changes nothing, and a heartbeat over the empty database is a no-op. -/
theorem heartbeat_failure_inert_witness :
    ((HeartbeatOutcome.postError "conn reset") ≠ HeartbeatOutcome.ok ∧
     send_heartbeat 5 (.postError "conn reset") exFreshState =
       exFreshState) ∧
    (emptyState.licenses.head? = none ∧
     send_heartbeat 5 .ok emptyState = emptyState) :=
  ⟨⟨by decide,
    heartbeat_failure_inert.1 5 (.postError "conn reset") exFreshState
      (by decide)⟩,
   ⟨rfl, heartbeat_failure_inert.2 5 .ok emptyState rfl⟩⟩

/-- C8: feature availability is a pure local read (`is_feature_available`
is a function of the database state alone — the embedding gives it no
authority-outcome argument).  A stored flag decides by
`licensed AND systemEnabled`; an absent flag is available exactly when
unlicensed core features are allowed and the key is one of the five fixed
core features. -/
theorem feature_availability_local_read :
    (∀ (allow : Bool) (key : String) (st : DBState) (f : FeatureFlag),
       st.flags.find? (fun x => x.featureKey == key) = some f →
       is_feature_available allow key st = (f.licensed && f.systemEnabled)) ∧
    (∀ (allow : Bool) (key : String) (st : DBState),
       st.flags.find? (fun x => x.featureKey == key) = none →
       (is_feature_available allow key st = true ↔
         allow = true ∧
         key ∈ ["module.camera_management", "module.live_view",
                "module.recording_basic", "module.playback",
                "module.user_management"])) := by
  constructor
  · intro allow key st f h
    simp [is_feature_available, h]
  · intro allow key st h
    simp [is_feature_available, h, is_core_feature]

/-- Witness for C8: a stored licensed-and-enabled flag is available; with
no stored flag, a core feature is available when core features are
allowed. -/
theorem feature_availability_local_read_witness :
    (exFlagState.flags.find?
        (fun x => x.featureKey == "module.analytics") = some exFlag ∧
     is_feature_available true "module.analytics" exFlagState =
       (exFlag.licensed && exFlag.systemEnabled)) ∧
    (emptyState.flags.find?
        (fun x => x.featureKey == "module.live_view") = none ∧
     is_feature_available true "module.live_view" emptyState = true) :=
  ⟨⟨by decide,
    feature_availability_local_read.1 true "module.analytics" exFlagState
      exFlag (by decide)⟩,
   ⟨rfl,
    (feature_availability_local_read.2 true "module.live_view" emptyState
        rfl).mpr ⟨rfl, by decide⟩⟩⟩

/-- Counterexample to C1 as stated: two successful Activate calls with
distinct license keys leave TWO CachedLicense rows — the upsert is keyed
by license key, so the second activation adds a row instead of
overwriting the first. -/
theorem single_license_row_counterexample :
    (activate_license 0 "hw" "KEY-A" (.accepted exDataA)
        emptyState).1.success = true ∧
    (activate_license 1 "hw" "KEY-B" (.accepted exDataB)
        (activate_license 0 "hw" "KEY-A" (.accepted exDataA)
          emptyState).2).1.success = true ∧
    (activate_license 1 "hw" "KEY-B" (.accepted exDataB)
        (activate_license 0 "hw" "KEY-A" (.accepted exDataA)
          emptyState).2).2.licenses.length = 2 := by decide

/-- C1 as amended: the store holds at most one CachedLicense row per
LICENSE KEY (not per installation).  Activation preserves
key-distinctness of the rows, and a successful re-activation with a key
already present overwrites that row rather than adding one (row count
unchanged). -/
theorem license_key_uniqueness (now : Nat) (hw key : String)
    (o : ActivateOutcome) (st : DBState)
    (h : (licenseKeys st).Nodup) :
    (licenseKeys (activate_license now hw key o st).2).Nodup ∧
    (∀ d : LicenseData, o = .accepted d →
       st.licenses.any (fun l => l.licenseKey == d.licenseKey) = true →
       (activate_license now hw key o st).2.licenses.length =
         st.licenses.length) := by
  cases o with
  | rejected m => exact ⟨h, fun d hd => by cases hd⟩
  | transportError m => exact ⟨h, fun d hd => by cases hd⟩
  | otherError m => exact ⟨h, fun d hd => by cases hd⟩
  | accepted d =>
      have hlic : (activate_license now hw key (.accepted d) st).2.licenses =
          (store_license_cache now d st).licenses := rfl
      constructor
      · show ((store_license_cache now d st).licenses.map
          (fun l => l.licenseKey)).Nodup
        unfold store_license_cache
        split
        · rw [List.map_map]
          have : st.licenses.map
              ((fun l : CachedLicense => l.licenseKey) ∘ (fun l =>
                if l.licenseKey == d.licenseKey then
                  { l with licenseData := d, cachedAt := now,
                           validUntil := now + thirtyDaysHours,
                           isValid := true,
                           licenseSignature := d.signature.getD "" }
                else l)) = st.licenses.map (fun l => l.licenseKey) := by
            apply List.map_congr_left
            intro a _
            simp only [Function.comp_apply]
            split <;> rfl
          rw [this]
          exact h
        · rename_i hany
          rw [List.map_append, List.nodup_append]
          refine ⟨h, List.nodup_singleton _, ?_⟩
          intro x hx hmem
          simp only [List.map_cons, List.map_nil, List.mem_singleton] at hmem
          subst hmem
          have hall : ∀ l ∈ st.licenses,
              (l.licenseKey == d.licenseKey) = false := by
            simpa [List.any_eq_false] using
              (Bool.not_eq_true _).mp hany
          obtain ⟨l, hl, hlk⟩ := List.mem_map.mp hx
          have := hall l hl
          rw [hlk] at this
          exact absurd this (by simp)
      · intro d' hd hany
        cases hd
        rw [hlic]
        unfold store_license_cache
        rw [if_pos hany]
        exact List.length_map _ _

/-- Witness for the amended C1: re-activating the already-stored `KEY-A`
over `exGraceState` keeps the keys distinct and the row count at one. -/
theorem license_key_uniqueness_witness :
    (licenseKeys exGraceState).Nodup ∧
    (licenseKeys (activate_license 20 "hw" "KEY-A" (.accepted exDataA)
        exGraceState).2).Nodup ∧
    (activate_license 20 "hw" "KEY-A" (.accepted exDataA)
        exGraceState).2.licenses.length = exGraceState.licenses.length :=
  ⟨by decide,
   (license_key_uniqueness 20 "hw" "KEY-A" (.accepted exDataA) exGraceState
      (by decide)).1,
   (license_key_uniqueness 20 "hw" "KEY-A" (.accepted exDataA) exGraceState
      (by decide)).2 exDataA rfl (by decide)⟩

/-- Counterexample to C9 as stated: a successful activation with the SAME
key as the cached record, performed while that record is in grace period,
leaves `inGracePeriod = true` — the in-place upsert does not clear the
grace flag. -/
theorem activation_restarts_active_counterexample :
    (activate_license 20 "hw" "KEY-A" (.accepted exDataA)
        exGraceState).1.success = true ∧
    ((activate_license 20 "hw" "KEY-A" (.accepted exDataA)
        exGraceState).2.licenses.head?.map (fun l => l.inGracePeriod)) =
      some true := by decide

/-- C9 as amended: a successful activation that CREATES the cached record
(no stored row with the payload's key) appends a row with
`inGracePeriod = false`, fresh `validUntil = now + 30 days` and null
grace timestamps; a successful re-activation over an existing row leaves
every row's `inGracePeriod`, `gracePeriodStartedAt` and
`gracePeriodExpiresAt` exactly as they were (only `validUntil`,
`isValid`, `licenseData`, `cachedAt` and the signature are renewed on the
matching row), so a record in grace period stays flagged as such. -/
theorem activation_grace_flag (now : Nat) (hw key : String)
    (d : LicenseData) (st : DBState) :
    (st.licenses.any (fun l => l.licenseKey == d.licenseKey) = false →
      (activate_license now hw key (.accepted d) st).2.licenses =
        st.licenses ++
          [{ licenseKey := d.licenseKey, licenseData := d, cachedAt := now,
             validUntil := now + thirtyDaysHours, lastValidatedAt := none,
             isValid := true, validationError := none,
             inGracePeriod := false, gracePeriodStartedAt := none,
             gracePeriodExpiresAt := none,
             licenseSignature := d.signature.getD "" }]) ∧
    (∀ (i : Nat) (lic : CachedLicense), st.licenses[i]? = some lic →
      ∃ lic',
        (activate_license now hw key (.accepted d) st).2.licenses[i]? =
          some lic' ∧
        lic'.inGracePeriod = lic.inGracePeriod ∧
        lic'.gracePeriodStartedAt = lic.gracePeriodStartedAt ∧
        lic'.gracePeriodExpiresAt = lic.gracePeriodExpiresAt ∧
        lic'.licenseKey = lic.licenseKey) := by
  have hlic : (activate_license now hw key (.accepted d) st).2.licenses =
      (store_license_cache now d st).licenses := rfl
  constructor
  · intro hany
    rw [hlic]
    unfold store_license_cache
    rw [if_neg (by simp [hany])]
  · intro i lic hi
    rw [hlic]
    unfold store_license_cache
    split
    · have hmap : (st.licenses.map (fun l =>
          if l.licenseKey == d.licenseKey then
            { l with licenseData := d, cachedAt := now,
                     validUntil := now + thirtyDaysHours, isValid := true,
                     licenseSignature := d.signature.getD "" }
          else l))[i]? =
          some (if lic.licenseKey == d.licenseKey then
            { lic with licenseData := d, cachedAt := now,
                       validUntil := now + thirtyDaysHours,
                       isValid := true,
                       licenseSignature := d.signature.getD "" }
          else lic) := by
        rw [List.getElem?_map, hi]
        rfl
      exact ⟨_, hmap, by split <;> rfl, by split <;> rfl,
             by split <;> rfl, by split <;> rfl⟩
    · have hlt : i < st.licenses.length := (List.getElem?_eq_some.mp hi).1
      exact ⟨lic, by rw [List.getElem?_append_left hlt]; exact hi,
             rfl, rfl, rfl, rfl⟩

/-- Witness for the amended C9: creating `KEY-B` afresh yields
`inGracePeriod = false`; re-activating `KEY-A` over the in-grace
`exGraceState` leaves the row's grace fields as they were. -/
theorem activation_grace_flag_witness :
    (emptyState.licenses.any
        (fun l => l.licenseKey == exDataB.licenseKey) = false ∧
     (activate_license 0 "hw" "KEY-B" (.accepted exDataB)
        emptyState).2.licenses =
       emptyState.licenses ++
         [{ licenseKey := exDataB.licenseKey, licenseData := exDataB,
            cachedAt := 0, validUntil := 0 + thirtyDaysHours,
            lastValidatedAt := none, isValid := true,
            validationError := none, inGracePeriod := false,
            gracePeriodStartedAt := none, gracePeriodExpiresAt := none,
            licenseSignature := exDataB.signature.getD "" }]) ∧
    (∃ lic',
       (activate_license 20 "hw" "KEY-A" (.accepted exDataA)
          exGraceState).2.licenses[0]? = some lic' ∧
       lic'.inGracePeriod = exGraceLicense.inGracePeriod ∧
       lic'.gracePeriodStartedAt = exGraceLicense.gracePeriodStartedAt ∧
       lic'.gracePeriodExpiresAt = exGraceLicense.gracePeriodExpiresAt ∧
       lic'.licenseKey = exGraceLicense.licenseKey) :=
  ⟨⟨by decide,
    (activation_grace_flag 0 "hw" "KEY-B" exDataB emptyState).1 (by decide)⟩,
   (activation_grace_flag 20 "hw" "KEY-A" exDataA exGraceState).2 0
     exGraceLicense (by decide)⟩

/-- Per-row frame of the license-cache upsert: every pre-existing row
keeps its key, grace flag and both grace timestamps (the upsert touches
only `licenseData`, `cachedAt`, `validUntil`, `isValid` and the
signature). -/
theorem store_row_frame (now : Nat) (d : LicenseData) (st : DBState)
    (i : Nat) (lic : CachedLicense) (hi : st.licenses[i]? = some lic) :
    ∃ lic', (store_license_cache now d st).licenses[i]? = some lic' ∧
      lic'.gracePeriodStartedAt = lic.gracePeriodStartedAt ∧
      lic'.gracePeriodExpiresAt = lic.gracePeriodExpiresAt := by
  unfold store_license_cache
  split
  · have hmap : (st.licenses.map (fun l =>
        if l.licenseKey == d.licenseKey then
          { l with licenseData := d, cachedAt := now,
                   validUntil := now + thirtyDaysHours, isValid := true,
                   licenseSignature := d.signature.getD "" }
        else l))[i]? =
        some (if lic.licenseKey == d.licenseKey then
          { lic with licenseData := d, cachedAt := now,
                     validUntil := now + thirtyDaysHours, isValid := true,
                     licenseSignature := d.signature.getD "" }
        else lic) := by
      rw [List.getElem?_map, hi]
      rfl
    exact ⟨_, hmap, by split <;> rfl, by split <;> rfl⟩
  · have hlt : i < st.licenses.length := (List.getElem?_eq_some.mp hi).1
    exact ⟨lic, by rw [List.getElem?_append_left hlt]; exact hi, rfl, rfl⟩

/-- The upsert never shrinks the license table. -/
theorem store_license_cache_length (now : Nat) (d : LicenseData)
    (st : DBState) :
    st.licenses.length ≤ (store_license_cache now d st).licenses.length := by
  unfold store_license_cache
  split
  · simp
  · simp

/-- The grace policy leaves the license rows unchanged or applies a
head-in-place update that ends with both grace timestamps set. -/
theorem check_grace_period_licenses (g now : Nat) (lic : CachedLicense)
    (st : DBState) :
    (check_grace_period g now lic st).2.licenses = st.licenses ∨
    ∃ f : CachedLicense → CachedLicense,
      (check_grace_period g now lic st).2.licenses =
        updateHead f st.licenses ∧
      ∀ x, (f x).gracePeriodStartedAt.isSome ∧
           (f x).gracePeriodExpiresAt.isSome := by
  unfold check_grace_period
  split
  · exact Or.inl rfl
  · split
    · exact Or.inr ⟨_, rfl, fun x => ⟨rfl, rfl⟩⟩
    · split
      · split
        · exact Or.inl rfl
        · exact Or.inl rfl
      · exact Or.inl rfl

/-- Validate leaves the license rows unchanged or applies a head-in-place
update under which a set grace timestamp stays set. -/
theorem validate_license_licenses (g now : Nat) (hw : String)
    (o : ValidateOutcome) (st : DBState) :
    (validate_license g now hw o st).2.licenses = st.licenses ∨
    ∃ f : CachedLicense → CachedLicense,
      (validate_license g now hw o st).2.licenses =
        updateHead f st.licenses ∧
      ∀ x, (x.gracePeriodStartedAt.isSome →
              (f x).gracePeriodStartedAt.isSome) ∧
           (x.gracePeriodExpiresAt.isSome →
              (f x).gracePeriodExpiresAt.isSome) := by
  cases hh : st.licenses.head? with
  | none => exact Or.inl (by simp [validate_license, get_cached_license, hh])
  | some c =>
      cases o with
      | response s v pay =>
          cases hsv : s && v with
          | true =>
              refine Or.inr ⟨fun l =>
                { l with lastValidatedAt := some now, isValid := v,
                         inGracePeriod := false },
                ?_, fun x => ⟨fun h => h, fun h => h⟩⟩
              simp [validate_license, get_cached_license, hh, hsv,
                    update_license_cache, log_validation_attempt]
          | false =>
              have heq : (validate_license g now hw (.response s v pay)
                  st).2 = (check_grace_period g now c st).2 := by
                simp [validate_license, get_cached_license, hh, hsv]
              rw [heq]
              rcases check_grace_period_licenses g now c st with hc | ⟨f, hf, hp⟩
              · exact Or.inl hc
              · exact Or.inr ⟨f, hf, fun x =>
                  ⟨fun _ => (hp x).1, fun _ => (hp x).2⟩⟩
      | transportError m =>
          have heq : (validate_license g now hw (.transportError m) st).2 =
              (check_grace_period g now c (log_validation_attempt
                c.licenseKey "offline" (some m) hw st)).2 := by
            simp [validate_license, get_cached_license, hh]
          rw [heq]
          rcases check_grace_period_licenses g now c
              (log_validation_attempt c.licenseKey "offline" (some m) hw st)
            with hc | ⟨f, hf, hp⟩
          · exact Or.inl hc
          · exact Or.inr ⟨f, hf, fun x =>
              ⟨fun _ => (hp x).1, fun _ => (hp x).2⟩⟩
      | otherError m =>
          have heq : (validate_license g now hw (.otherError m) st).2 =
              (check_grace_period g now c (log_validation_attempt
                c.licenseKey "failed" (some m) hw st)).2 := by
            simp [validate_license, get_cached_license, hh]
          rw [heq]
          rcases check_grace_period_licenses g now c
              (log_validation_attempt c.licenseKey "failed" (some m) hw st)
            with hc | ⟨f, hf, hp⟩
          · exact Or.inl hc
          · exact Or.inr ⟨f, hf, fun x =>
              ⟨fun _ => (hp x).1, fun _ => (hp x).2⟩⟩

/-- A heartbeat leaves the license rows unchanged or applies a
head-in-place update touching only `lastValidatedAt`. -/
theorem send_heartbeat_licenses (now : Nat) (o : HeartbeatOutcome)
    (st : DBState) :
    (send_heartbeat now o st).licenses = st.licenses ∨
    ∃ f : CachedLicense → CachedLicense,
      (send_heartbeat now o st).licenses = updateHead f st.licenses ∧
      ∀ x, (x.gracePeriodStartedAt.isSome →
              (f x).gracePeriodStartedAt.isSome) ∧
           (x.gracePeriodExpiresAt.isSome →
              (f x).gracePeriodExpiresAt.isSome) := by
  cases hh : get_cached_license st with
  | none => exact Or.inl (by simp [send_heartbeat, hh])
  | some c =>
      cases o with
      | metricsError m => exact Or.inl (by simp [send_heartbeat, hh])
      | postError m => exact Or.inl (by simp [send_heartbeat, hh])
      | ok =>
          refine Or.inr ⟨fun l => { l with lastValidatedAt := some now },
            ?_, fun x => ⟨fun h => h, fun h => h⟩⟩
          simp [send_heartbeat, hh]

/-- Rows under a head-in-place update whose function keeps set grace
timestamps set: every index keeps a row and stickiness transfers. -/
theorem sticky_updateHead (f : CachedLicense → CachedLicense)
    (hf : ∀ x, (x.gracePeriodStartedAt.isSome →
                  (f x).gracePeriodStartedAt.isSome) ∧
               (x.gracePeriodExpiresAt.isSome →
                  (f x).gracePeriodExpiresAt.isSome))
    (l : List CachedLicense) (i : Nat) (lic : CachedLicense)
    (hi : l[i]? = some lic) :
    ∃ lic', (updateHead f l)[i]? = some lic' ∧
      (lic.gracePeriodStartedAt.isSome → lic'.gracePeriodStartedAt.isSome) ∧
      (lic.gracePeriodExpiresAt.isSome → lic'.gracePeriodExpiresAt.isSome)
    := by
  by_cases h0 : i = 0
  · subst h0
    exact ⟨f lic, by rw [updateHead_getElem?]; simp [hi], (hf lic).1,
           (hf lic).2⟩
  · exact ⟨lic, by rw [updateHead_getElem?]; simp [h0, hi],
           fun h => h, fun h => h⟩

/-- C10: grace timestamps are sticky.  Across every engine operation
(activation, validation, heartbeat, with any outcome), no pre-existing
license row ever has a set `gracePeriodStartedAt` or
`gracePeriodExpiresAt` cleared back to null (rows are never deleted
either); and a successful Validate rewrites the cached row to exactly
`lastValidatedAt = now`, `isValid = true`, `inGracePeriod = false`, with
both grace timestamps left at their previous values — so a record can
carry stale grace timestamps while `inGracePeriod` is false. -/
theorem grace_timestamps_sticky :
    (∀ (op : EngineOp) (st : DBState),
       st.licenses.length ≤ (op.apply st).licenses.length ∧
       (∀ (i : Nat) (lic : CachedLicense), st.licenses[i]? = some lic →
         ∃ lic', (op.apply st).licenses[i]? = some lic' ∧
           (lic.gracePeriodStartedAt.isSome →
              lic'.gracePeriodStartedAt.isSome) ∧
           (lic.gracePeriodExpiresAt.isSome →
              lic'.gracePeriodExpiresAt.isSome))) ∧
    (∀ (g now : Nat) (hw : String) (s v : Bool) (pay : LicenseData)
       (lic : CachedLicense) (st : DBState),
       st.licenses.head? = some lic → (s && v) = true →
       (validate_license g now hw (.response s v pay) st).2.licenses.head? =
         some { lic with lastValidatedAt := some now, isValid := true,
                         inGracePeriod := false }) := by
  constructor
  · intro op st
    cases op with
    | activate now hw key o =>
        cases o with
        | accepted d =>
            have heq : ((EngineOp.activate now hw key
                (.accepted d)).apply st).licenses =
                (store_license_cache now d st).licenses := rfl
            rw [heq]
            exact ⟨store_license_cache_length now d st,
                   fun i lic hi => by
                     obtain ⟨lic', h1, h2, h3⟩ := store_row_frame now d st
                       i lic hi
                     exact ⟨lic', h1, by rw [h2]; exact fun h => h,
                            by rw [h3]; exact fun h => h⟩⟩
        | rejected m =>
            exact ⟨Nat.le_refl _, fun i lic hi =>
              ⟨lic, hi, fun h => h, fun h => h⟩⟩
        | transportError m =>
            exact ⟨Nat.le_refl _, fun i lic hi =>
              ⟨lic, hi, fun h => h, fun h => h⟩⟩
        | otherError m =>
            exact ⟨Nat.le_refl _, fun i lic hi =>
              ⟨lic, hi, fun h => h, fun h => h⟩⟩
    | validate g now hw o =>
        have hch := validate_license_licenses g now hw o st
        have heq : ((EngineOp.validate g now hw o).apply st).licenses =
            (validate_license g now hw o st).2.licenses := rfl
        rw [heq]
        rcases hch with hc | ⟨f, hf, hp⟩
        · rw [hc]
          exact ⟨Nat.le_refl _, fun i lic hi =>
            ⟨lic, hi, fun h => h, fun h => h⟩⟩
        · rw [hf]
          exact ⟨by rw [updateHead_length],
                 fun i lic hi => sticky_updateHead f hp st.licenses i lic hi⟩
    | heartbeat now o =>
        have hch := send_heartbeat_licenses now o st
        have heq : ((EngineOp.heartbeat now o).apply st).licenses =
            (send_heartbeat now o st).licenses := rfl
        rw [heq]
        rcases hch with hc | ⟨f, hf, hp⟩
        · rw [hc]
          exact ⟨Nat.le_refl _, fun i lic hi =>
            ⟨lic, hi, fun h => h, fun h => h⟩⟩
        · rw [hf]
          exact ⟨by rw [updateHead_length],
                 fun i lic hi => sticky_updateHead f hp st.licenses i lic hi⟩
  · intro g now hw s v pay lic st hhead hsv
    have hv : v = true := by
      cases s <;> cases v <;> simp_all
    subst hv
    simp [validate_license, get_cached_license, hhead, hsv,
          update_license_cache, log_validation_attempt, updateHead_head?]

/-- Witness for C10: a concrete successful validation over
`exGraceState` turns `inGracePeriod` off while both grace timestamps keep
their old values, and rows survive a concrete heartbeat. -/
theorem grace_timestamps_sticky_witness :
    (exGraceState.licenses.head? = some exGraceLicense ∧
     (validate_license 72 30 "hw" (.response true true exDataA)
        exGraceState).2.licenses.head? =
       some { exGraceLicense with lastValidatedAt := some 30,
                                  isValid := true,
                                  inGracePeriod := false }) ∧
    (∃ lic', ((EngineOp.heartbeat 30 .ok).apply
        exGraceState).licenses[0]? = some lic' ∧
      (exGraceLicense.gracePeriodStartedAt.isSome →
         lic'.gracePeriodStartedAt.isSome) ∧
      (exGraceLicense.gracePeriodExpiresAt.isSome →
         lic'.gracePeriodExpiresAt.isSome)) :=
  ⟨⟨by decide,
    grace_timestamps_sticky.2 72 30 "hw" true true exDataA exGraceLicense
      exGraceState (by decide) (by decide)⟩,
   (grace_timestamps_sticky.1 (EngineOp.heartbeat 30 .ok) exGraceState).2 0
     exGraceLicense (by decide)⟩
